import Mathlib

set_option linter.unusedVariables false

/-!
Verification of the batch-preparation logic of `illum/batches.py`.

The Python module is shallowly embedded below.  Pure helpers
(`input_line`, `create_illumina_in`, the parameter-space construction of
`batches`, the `unique_ID` construction of `folder_setup`) become Lean
functions; the filesystem-touching code (`create_symlinks`,
`folder_setup`, the cleanup phases of `batches`) becomes explicit state
passing over a small filesystem state, with Python exceptions modelled
by `Except` / an error component.  Machine integers are `Int`
(Python ints are unbounded, so no wrap-around is needed); Python floats
appear in the source only as configuration values and are modelled by
their integral values, which is what every property below exercises.
-/

/-- Python values occurring in the configuration and the parameter
matrix: strings, integers (Python booleans enter the serializer only
after `* 1`, hence as integers), and `(lat, lon)` coordinate tuples,
modelled with integral coordinates. -/
inductive PVal where
  | vs : String → PVal
  | vi : Int → PVal
  | pr : Int → Int → PVal
deriving DecidableEq

/-- Python `str()` of a value.  `str` of an int is its decimal
rendering; `str` of a 2-tuple of ints is `(a, b)`. -/
def pvalStr : PVal → String
  | .vs s => s
  | .vi n => toString n
  | .pr a b => "(" ++ toString a ++ ", " ++ toString b ++ ")"

/-- Python `sep.join(parts)`. -/
def pyJoin (sep : String) : List String → String
  | [] => ""
  | [s] => s
  | s :: r :: t => s ++ sep ++ pyJoin sep (r :: t)

/-- Python `"%-*s" % (w, s)`: left justification to a minimum field
width `w` by space padding (no truncation). -/
def pyLJust (w : Nat) (s : String) : String :=
  s ++ String.mk (List.replicate (w - s.length) ' ')

/-- `p` is a string prefix of `s`.  Used to model the shell glob
`p*` on top-level file names and path-subtree membership. -/
def strPrefix (p s : String) : Bool := decide (p.data <+: s.data)

/-- Python `"%6f" % x` for an integral `x`: six decimal places (the
default precision; the minimum width 6 never pads for these inputs). -/
def fmt6 (n : Int) : String := toString n ++ ".000000"

/-- A configuration entry of `inputs_params.in`: a scalar, or a list —
the latter makes the parameter a "varying" one (line 168). -/
inductive PEntry where
  | scalar : PVal → PEntry
  | plist : List PVal → PEntry
deriving DecidableEq

/-- The configuration dict loaded by `yaml.safe_load` (line 99): an
insertion-ordered association list, as a Python dict is. -/
abbrev Config := List (String × PEntry)

/-- Python dict lookup `params[k]` (`none` models the `KeyError` case). -/
def cfgFind (k : String) : Config → Option PEntry
  | [] => none
  | (k1, e) :: r => if k1 = k then some e else cfgFind k r

/-- The value list of a list-valued key (`[]` when absent or scalar;
the source only applies this to members of `multival`). -/
def cfgList (cfg : Config) (k : String) : List PVal :=
  match cfgFind k cfg with
  | some (.plist vs) => vs
  | _ => []

/-- Line 168: `[k for k in params if isinstance(params[k], list)]` —
the varying parameter names in declaration order. -/
def multival (cfg : Config) : List String :=
  cfg.filterMap (fun p => match p.2 with | .plist _ => some p.1 | .scalar _ => none)

/-- Line 169: `sorted(multival, key=len, reverse=True)`.  `len` is
applied to the elements of `multival`, i.e. to the parameter NAMES, so
this sorts by descending length of the name string.  Python `sorted` is
stable; a stable sort by a total preorder is unique, and insertion sort
with the non-strict descending-length relation computes it. -/
def multival_sorted (cfg : Config) : List String :=
  List.insertionSort (fun a b => b.length ≤ a.length) (multival cfg)

/-- `itertools.product(*param_space)` (line 175): ordered tuples, the
rightmost factor varying fastest. -/
def listProd : List (List PVal) → List (List PVal)
  | [] => [[]]
  | l :: ls => (l.map (fun x => (listProd ls).map (fun r => x :: r))).flatten

/-- Lines 170 and 175: `param_space = [params[k] for k in multival]`
and `param_vals = list(product(*param_space))`. -/
def param_vals (cfg : Config) : List (List PVal) :=
  listProd ((multival_sorted cfg).map (cfgList cfg))

/-- Line 250: `OrderedDict(zip(multival, vals))` — the combination as
an ordered mapping from varying names to this tuple's values. -/
def localOf (cfg : Config) (vals : List PVal) : List (String × PVal) :=
  (multival_sorted cfg).zip vals

/-- Ordered-dict lookup on a combination. -/
def kvLookup (k : String) : List (String × PVal) → Option PVal
  | [] => none
  | (k1, v) :: r => if k1 = k then some v else kvLookup k r

/-- Ordered-dict update (`ChainMap.__setitem__` writes into the first
map, i.e. into `local_params`; line 271). -/
def setKV (k : String) (v : PVal) : List (String × PVal) → List (String × PVal)
  | [] => [(k, v)]
  | (k1, v1) :: r => if k1 = k then (k, v) :: r else (k1, v1) :: setKV k v r

/-- `ChainMap(local_params, params)` read (line 251): the combination
value wins, otherwise the configuration scalar.  A list-valued base
entry is never reached this way in the source (all list keys are in
`multival`, hence in `local_params`), and a completely absent key would
raise `KeyError` in Python; both are modelled as `none`. -/
def chainLookup (lp : List (String × PVal)) (cfg : Config) (k : String) : Option PVal :=
  match kvLookup k lp with
  | some v => some v
  | none =>
    match cfgFind k cfg with
    | some (.scalar v) => some v
    | _ => none

/-- Python `list.index(v)`: index of the first occurrence.  Python
raises `ValueError` when `v` is absent; that case is modelled as the
list length (in particular nonzero for a nonempty list) and never
arises for values drawn from the product. -/
def pyIndex : List PVal → PVal → Nat
  | [], _ => 0
  | x :: xs, v => if x = v then 0 else pyIndex xs v + 1

/-- Lines 252–257, the constraint filter: the combination is kept
unless azimuth is varying, the resolved elevation equals 90 and the
resolved azimuth is not at index 0 of the original azimuth list.  A
missing `elevation_angle` key (which would raise `KeyError` in Python)
is modelled as the comparison with 90 failing. -/
def keepB (mv : List String) (lp : List (String × PVal)) (cfg : Config) : Bool :=
  !(decide ("azimuth_angle" ∈ mv) &&
    decide (chainLookup lp cfg "elevation_angle" = some (PVal.vi 90)) &&
    decide (pyIndex (cfgList cfg "azimuth_angle")
      ((chainLookup lp cfg "azimuth_angle").getD (PVal.vi 0)) ≠ 0))

/-- The combinations that survive the constraint filter. -/
def retainedVals (cfg : Config) : List (List PVal) :=
  (param_vals cfg).filter (fun vals => keepB (multival_sorted cfg) (localOf cfg vals) cfg)

/-- Line 290: `"-".join("%s_%s" % item for item in local_params.items())`. -/
def unique_ID (lp : List (String × PVal)) : String :=
  pyJoin "-" (lp.map (fun kv => kv.1 ++ "_" ++ pvalStr kv.2))

/-- Lines 273–288: the sandbox directory name — nested `key_value`
segments over the combination (restricted to observer/wavelength/layer
in compact mode), prefixed by `dir_name` and ending in `os.sep`. -/
def fold_name (dirName : String) (compact : Bool) (lp : List (String × PVal)) : String :=
  if compact then
    dirName ++ pyJoin "/" ((lp.filter
      (fun kv => decide (kv.1 ∈ ["observer_coordinates", "wavelength", "layer"]))).map
      (fun kv => kv.1 ++ "_" ++ pvalStr kv.2)) ++ "/"
  else
    dirName ++ pyJoin "/" (lp.map (fun kv => kv.1 ++ "_" ++ pvalStr kv.2)) ++ "/"

/-- The order the spec claims for line 169 ("descending cardinality of
their value lists, ties broken by original declaration order").
Modelled from the spec's words, for comparison with `multival_sorted`:
the same unique stable sort, but keyed by the length of the VALUE list. -/
def multival_sorted_spec (cfg : Config) : List String :=
  List.insertionSort (fun a b => (cfgList cfg b).length ≤ (cfgList cfg a).length) (multival cfg)

/-- Lines 34–37, `input_line(val, comment, n_space=30)`:
`"%-*s ! %s" % (n_space, " ".join(str(v) for v in val), " ; ".join(comment))`. -/
def input_line (val : List PVal) (comment : List String) (n_space : Nat := 30) : String :=
  pyLJust n_space (pyJoin " " (val.map pvalStr)) ++ " ! " ++ pyJoin " ; " comment

/-- Python `bool * 1`: 0/1 serialization of the scattering and
obstacle flags (lines 377, 378, 395). -/
def boolMulOne (b : Bool) : Int := if b then 1 else 0

/-- The resolved parameters `P` read by `create_illumina_in`, one field
per key the function accesses on the `ChainMap`. -/
structure RP where
  layer_aod : PVal
  layer_alpha : PVal
  layer_height : PVal
  double_scattering : Bool
  single_scattering : Bool
  air_pressure : PVal
  aerosol_optical_depth : PVal
  angstrom_coefficient : PVal
  aerosol_height : PVal
  stop_limit : PVal
  observer_elevation : PVal
  observer_obstacles : Bool
  elevation_angle : PVal
  azimuth_angle : Int
  direct_fov : PVal
  reflection_radius : PVal
  cloud_model : PVal
  cloud_base : PVal
  cloud_fraction : PVal
deriving DecidableEq

/-- Lines 361–426, `create_illumina_in`: the logical lines of the
simulator input document, each a group of (value, comment) fields.
`ds` is `MSD` data reduced to the only method used, `pixel_size`;
`%` on `Int` is Euclidean remainder, which agrees with Python `%` for
the positive modulus 360. -/
def create_illumina_in (exp_name : String) (layer : PVal) (ds_pixel_size : PVal → PVal)
    (P : RP) (wavelength : String) (reflectance bandwidth : PVal) (lamps : List String)
    (bearing : Int) : List (List (PVal × String)) :=
  [ [(.vs "", "Input file for ILLUMINA")],
    [(.vs exp_name, "Root file name")],
    [(ds_pixel_size layer, "Cell size along X [m]"),
     (ds_pixel_size layer, "Cell size along Y [m]")],
    [(.vs "aerosol.txt", "Aerosol optical cross section file")],
    [(.vs "layer.txt", "Layer optical cross section file"),
     (P.layer_aod, "Layer aerosol optical depth at 500nm"),
     (P.layer_alpha, "Layer angstom coefficient"),
     (P.layer_height, "Layer scale height [m]")],
    [(.vi (boolMulOne P.double_scattering), "Double scattering activated")],
    [(.vi (boolMulOne P.single_scattering), "Single scattering activated")],
    [(.vs wavelength, "Wavelength [nm]"), (bandwidth, "Bandwidth [nm]")],
    [(reflectance, "Reflectance")],
    [(P.air_pressure, "Ground level pressure [kPa]")],
    [(P.aerosol_optical_depth, "Aerosol optical depth at 500nm"),
     (P.angstrom_coefficient, "Angstrom exponent"),
     (P.aerosol_height, "Aerosol scale height [m]")],
    [(.vi (Int.ofNat lamps.length), "Number of source types")],
    [(P.stop_limit, "Contribution threshold")],
    [(.vs "", "")],
    [(.vi 256, "Observer X position"), (.vi 256, "Observer Y position"),
     (P.observer_elevation, "Observer elevation above ground [m]")],
    [(.vi (boolMulOne P.observer_obstacles), "Obstacles around observer")],
    [(P.elevation_angle, "Elevation viewing angle"),
     (.vi ((P.azimuth_angle + bearing) % 360), "Azimuthal viewing angle")],
    [(P.direct_fov, "Direct field of view")],
    [(.vs "", "")],
    [(.vs "", "")],
    [(.vs "", "")],
    [(P.reflection_radius,
      "Radius around light sources where reflextions are computed")],
    [(P.cloud_model,
      "Cloud model: 0=clear, 1=Thin Cirrus/Cirrostratus, 2=Thick Cirrus/Cirrostratus, 3=Altostratus/Altocumulus, 4=Cumulus/Cumulonimbus, 5=Stratocumulus"),
     (P.cloud_base, "Cloud base altitude [m]"),
     (P.cloud_fraction, "Cloud fraction")],
    [(.vs "", "")] ]

/-- Lines 325–326 of `param_generate`:
`"\n".join(input_line(*zip(*line_data)) for line_data in input_data)` —
the serialized document. -/
def renderDoc (input_data : List (List (PVal × String))) : String :=
  pyJoin "\n" (input_data.map (fun ld => input_line (ld.map Prod.fst) (ld.map Prod.snd) 30))

/-- Modelled from the spec: the rendering rule of §4.4 — each logical
line is its space-joined values left-justified to a minimum field width
of 30 characters, followed by `!` and the comment string (comment
strings of one group joined by " ; "). -/
def specLine (ld : List (PVal × String)) : String :=
  pyLJust 30 (pyJoin " " (ld.map (fun f => pvalStr f.1))) ++ " ! " ++
    pyJoin " ; " (ld.map (fun f => f.2))

/-- Modelled from the spec: the §4.4 field order, transcribed from the
spec's own enumeration (its positions 1–24).  To be compared with
`create_illumina_in`. -/
def specIlluminaLines (exp_name : String) (layer : PVal) (ds_pixel_size : PVal → PVal)
    (P : RP) (wavelength : String) (reflectance bandwidth : PVal) (lamps : List String)
    (bearing : Int) : List (List (PVal × String)) :=
  [ [(.vs "", "Input file for ILLUMINA")],
    [(.vs exp_name, "Root file name")],
    [(ds_pixel_size layer, "Cell size along X [m]"),
     (ds_pixel_size layer, "Cell size along Y [m]")],
    [(.vs "aerosol.txt", "Aerosol optical cross section file")],
    [(.vs "layer.txt", "Layer optical cross section file"),
     (P.layer_aod, "Layer aerosol optical depth at 500nm"),
     (P.layer_alpha, "Layer angstom coefficient"),
     (P.layer_height, "Layer scale height [m]")],
    [(.vi (boolMulOne P.double_scattering), "Double scattering activated")],
    [(.vi (boolMulOne P.single_scattering), "Single scattering activated")],
    [(.vs wavelength, "Wavelength [nm]"), (bandwidth, "Bandwidth [nm]")],
    [(reflectance, "Reflectance")],
    [(P.air_pressure, "Ground level pressure [kPa]")],
    [(P.aerosol_optical_depth, "Aerosol optical depth at 500nm"),
     (P.angstrom_coefficient, "Angstrom exponent"),
     (P.aerosol_height, "Aerosol scale height [m]")],
    [(.vi (Int.ofNat lamps.length), "Number of source types")],
    [(P.stop_limit, "Contribution threshold")],
    [(.vs "", "")],
    [(.vi 256, "Observer X position"), (.vi 256, "Observer Y position"),
     (P.observer_elevation, "Observer elevation above ground [m]")],
    [(.vi (boolMulOne P.observer_obstacles), "Obstacles around observer")],
    [(P.elevation_angle, "Elevation viewing angle"),
     (.vi ((P.azimuth_angle + bearing) % 360), "Azimuthal viewing angle")],
    [(P.direct_fov, "Direct field of view")],
    [(.vs "", "")],
    [(.vs "", "")],
    [(.vs "", "")],
    [(P.reflection_radius,
      "Radius around light sources where reflextions are computed")],
    [(P.cloud_model,
      "Cloud model: 0=clear, 1=Thin Cirrus/Cirrostratus, 2=Thick Cirrus/Cirrostratus, 3=Altostratus/Altocumulus, 4=Cumulus/Cumulonimbus, 5=Stratocumulus"),
     (P.cloud_base, "Cloud base altitude [m]"),
     (P.cloud_fraction, "Cloud fraction")],
    [(.vs "", "")] ]

/-- Modelled from the spec: the §4.4 document — the spec-side lines,
each rendered by the §4.4 rendering rule, joined by newlines. -/
def specIlluminaDoc (exp_name : String) (layer : PVal) (ds_pixel_size : PVal → PVal)
    (P : RP) (wavelength : String) (reflectance bandwidth : PVal) (lamps : List String)
    (bearing : Int) : String :=
  pyJoin "\n" ((specIlluminaLines exp_name layer ds_pixel_size P wavelength reflectance
    bandwidth lamps bearing).map specLine)

/-- Python exceptions that the embedded code can raise. -/
inductive PyErr where
  | nameError : String → PyErr
  | keyError : String → PyErr
  | typeError : PyErr
  | valueError : PyErr
  | indexError : PyErr
  | fileExists : String → PyErr
deriving DecidableEq

/-- The filesystem state the module manipulates, with paths relative to
the input directory (`os.chdir(input_path)`, line 96): existing
directories, symlinks as (link path, target as given to `os.symlink`),
regular files as (path, content), and whether `brng.lst` exists
(`os.path.isfile`, lines 157 and 259). -/
structure FState where
  hasBrng : Bool
  dirs : List String
  links : List (String × String)
  files : List (String × String)
deriving DecidableEq

/-- A path already carries an entry (directory, link or file). -/
def occupied (st : FState) (p : String) : Bool :=
  decide (p ∈ st.dirs) || decide (p ∈ st.links.map Prod.fst) ||
    decide (p ∈ st.files.map Prod.fst)

/-- `os.symlink(target, linkpath)`: the target path is NOT consulted —
a dangling link is created silently when it does not exist.  The call
fails (`FileExistsError`) exactly when the link path itself already
exists.  The pair is (target, linkpath), in the source's argument
order. -/
def symlinkOp (st : FState) (p : String × String) : Except PyErr FState :=
  if occupied st p.2 then Except.error (.fileExists p.2)
  else Except.ok { st with links := (p.2, p.1) :: st.links }

/-- Run a sequence of `os.symlink` calls, aborting on the first error. -/
def linkAll : List (String × String) → FState → Except PyErr FState
  | [], st => Except.ok st
  | p :: rest, st =>
    match symlinkOp st p with
    | .error e => Except.error e
    | .ok st1 => linkAll rest st1

/-- The arguments of `create_symlinks` (line 428); of the whole
`params` dict only `aerosol_profile` and `layer_type` are read. -/
structure SymArgs where
  fold_name : String
  aerosol_profile : String
  layer_type : String
  exp_name : String
  coords : String
  layer : PVal
  lamps : List String
  wavelength : String
deriving DecidableEq

/-- Number of directory levels of a sandbox path ending in `os.sep`. -/
def countSlash (s : String) : Nat := s.data.count '/'

/-- `os.path.relpath(path, fold)` for the paths used here: `path` is
relative to the working directory and shares no prefix with the
sandbox directory `fold`, so the result is one `../` per level of
`fold` followed by `path`. -/
def relpathFrom (path fold : String) : String :=
  pyJoin "" (List.replicate (countSlash fold) "../") ++ path

/-- Python `"%03d" % n` for `n ≥ 0`. -/
def pad3 (n : Nat) : String :=
  if n < 10 then "00" ++ toString n
  else if n < 100 then "0" ++ toString n
  else toString n

/-- Python `enumerate(l, i)`. -/
def enum1 : Nat → List String → List (Nat × String)
  | _, [] => []
  | i, x :: r => (i, x) :: enum1 (i + 1) r

/-- `os.path.abspath(illumpath + "/bin/illumina")` (lines 451–453).
Modelled from the spec: the simulator executable is an external input
(§6); its absolute install path is environment-dependent. -/
def illum_bin : String := "/illum/bin/illumina"

/-- `os.path.join("obs_data", coords, str(layer))` (line 457). -/
def obs_fold (a : SymArgs) : String :=
  "obs_data" ++ "/" ++ a.coords ++ "/" ++ pvalStr a.layer

/-- The `(target, linkpath)` pairs passed to `os.symlink` by
`create_symlinks`, in source order (lines 432–488). -/
def linkPairs (a : SymArgs) : List (String × String) :=
  [(relpathFrom (a.aerosol_profile ++ "_" ++ a.wavelength ++ ".txt") a.fold_name,
      a.fold_name ++ "aerosol.txt"),
   (relpathFrom (a.layer_type ++ "_" ++ a.wavelength ++ ".txt") a.fold_name,
      a.fold_name ++ "layer.txt"),
   (relpathFrom "MolecularAbs.txt" a.fold_name, a.fold_name ++ "MolecularAbs.txt")]
  ++ (enum1 1 a.lamps).map (fun il =>
      (relpathFrom ("fctem_wl_" ++ a.wavelength ++ "_lamp_" ++ il.2 ++ ".dat") a.fold_name,
       a.fold_name ++ a.exp_name ++ "_fctem_" ++ pad3 il.1 ++ ".dat"))
  ++ [(illum_bin, a.fold_name ++ "illumina"),
      (relpathFrom (obs_fold a ++ "/" ++ "srtm.bin") a.fold_name,
       a.fold_name ++ a.exp_name ++ "_topogra.bin"),
      (relpathFrom (obs_fold a ++ "/" ++ "origin.bin") a.fold_name,
       a.fold_name ++ "origin.bin")]
  ++ (["obstd", "obsth", "obstf", "altlp"].map (fun name =>
      (relpathFrom (obs_fold a ++ "/" ++ a.exp_name ++ "_" ++ name ++ ".bin") a.fold_name,
       a.fold_name ++ a.exp_name ++ "_" ++ name ++ ".bin")))
  ++ (enum1 1 a.lamps).map (fun il =>
      (relpathFrom (obs_fold a ++ "/" ++ a.exp_name ++ "_" ++ a.wavelength ++ "_lumlp_" ++ il.2 ++ ".bin")
         a.fold_name,
       a.fold_name ++ a.exp_name ++ "_lumlp_" ++ pad3 il.1 ++ ".bin"))

/-- The link paths `create_symlinks` would create. -/
def linkDests (a : SymArgs) : List String := (linkPairs a).map Prod.snd

/-- Lines 428–488, `create_symlinks`: when the sandbox directory
already exists, do nothing at all; otherwise create it
(`os.makedirs`) and run the symlink sequence. -/
def create_symlinks (a : SymArgs) (st : FState) : Except PyErr FState :=
  if a.fold_name ∈ st.dirs then Except.ok st
  else linkAll (linkPairs a) { st with dirs := a.fold_name :: st.dirs }

/-- Sandbox construction over a combination set: `create_symlinks`
once per combination, in order (the per-combination call site is
line 295). -/
def sandboxBuild : List SymArgs → FState → Except PyErr FState
  | [], st => Except.ok st
  | a :: rest, st =>
    match create_symlinks a st with
    | .error e => Except.error e
    | .ok st1 => sandboxBuild rest st1

/-- Python `"%g" % x` (line 291): requires a number; an integral value
renders as its decimal digits. -/
def fmtG : PVal → Except PyErr String
  | .vi n => Except.ok (toString n)
  | _ => Except.error .typeError

/-- Python `list.index` with its `ValueError` on absence (line 263). -/
def pyIndexE (l : List PVal) (v : PVal) : Except PyErr Nat :=
  if v ∈ l then Except.ok (pyIndex l v) else Except.error .valueError

/-- One iteration of the `folder_setup` loop (lines 249–300).  A
filtered-out combination is skipped with no effect (`continue`,
line 257).  A retained combination evaluates, in source order: the
bearing block (259–267), the coordinate string (269–271), the sandbox
path (273–288), `unique_ID` (290), `"%g" % P["wavelength"]` (291) and
`P["layer"]` (292) — and then line 293 reads `refls` (as 293–295 read
`wls`, `spectral_bands` and `lamps`), names that are locals of
`batches` and are not in `folder_setup`'s scope, so every retained
combination raises `NameError`.  Consequently the step never reaches
`create_symlinks` (295) nor the manifest appends (298–300) and has no
filesystem effect. -/
def folderStep (cfg : Config) (mv : List String) (brng : Option (List Int)) (compact : Bool)
    (dirName : String) (st : FState) (vals : List PVal) : Except PyErr Unit :=
  let lp := mv.zip vals
  if keepB mv lp cfg then
    (do
      let _bearing ←
        (if st.hasBrng then do
          let obs_index ←
            (if "observer_coordinates" ∈ mv then
              pyIndexE (cfgList cfg "observer_coordinates")
                ((chainLookup lp cfg "observer_coordinates").getD (.vi 0))
            else Except.ok 0)
          (match brng with
           | some bl =>
             (match bl.get? obs_index with
              | some b => Except.ok b
              | none => Except.error PyErr.indexError)
           | none => Except.error PyErr.typeError)
        else Except.ok 0)
      let coords ←
        (match chainLookup lp cfg "observer_coordinates" with
         | some (.pr la lo) => Except.ok (fmt6 la ++ "_" ++ fmt6 lo)
         | some _ => Except.error PyErr.typeError
         | none => Except.error (PyErr.keyError "observer_coordinates"))
      let lp1 := if "observer_coordinates" ∈ mv then setKV "observer_coordinates" (.vs coords) lp
        else lp
      let _fold := fold_name dirName compact lp1
      let _uid := unique_ID lp1
      let _wavelength ←
        (match chainLookup lp1 cfg "wavelength" with
         | some v => fmtG v
         | none => Except.error (PyErr.keyError "wavelength"))
      let _layer ←
        (match chainLookup lp1 cfg "layer" with
         | some v => Except.ok v
         | none => Except.error (PyErr.keyError "layer"))
      Except.error (PyErr.nameError "refls"))
  else Except.ok ()

/-- The `folder_setup` loop over all combinations, stopping at the
first raised exception. -/
def folderLoop (cfg : Config) (mv : List String) (brng : Option (List Int)) (compact : Bool)
    (dirName : String) (st : FState) : List (List PVal) → Option PyErr
  | [] => none
  | vals :: rest =>
    match folderStep cfg mv brng compact dirName st vals with
    | .error e => some e
    | .ok () => folderLoop cfg mv brng compact dirName st rest

/-- `open(p, "w")` followed by a full write: truncate/replace. -/
def writeFile (st : FState) (p c : String) : FState :=
  { st with files := (p, c) :: st.files.filter (fun f => !(decide (f.1 = p))) }

/-- Lines 242–309, `folder_setup`: iterate the loop; an exception
propagates (leaving the manifest unwritten), otherwise write
`execute_info.txt` (lines 304–308).  When the loop completes, every
combination was filtered out — the manifest-line appends at 298–300
sit after the `NameError` of line 293 — so the written manifest is
empty. -/
def folder_setup (cfg : Config) (brng : Option (List Int)) (compact : Bool)
    (dirName expName : String) (st : FState) : FState × Option PyErr :=
  match folderLoop cfg (multival_sorted cfg) brng compact dirName st (param_vals cfg) with
  | some e => (st, some e)
  | none => (writeFile st "execute_info.txt" "", none)

/-- A top-level file name matched by the glob `bfn*` (line 104): `*`
does not cross `/`. -/
def batchMatch (bfn p : String) : Bool :=
  strPrefix bfn p && !(decide ('/' ∈ p.data))

/-- Lines 104–105: delete every top-level file matching
`batch_file_name*`. -/
def removeBatchFiles (bfn : String) (st : FState) : FState :=
  { st with files := st.files.filter (fun f => !(batchMatch bfn f.1)) }

/-- Lines 112–139: the observer-raster preprocessing, performed via
`MultiScaleData` (a module outside `src/`).  Modelled from the spec:
§1 places upstream raster preprocessing out of scope; its filesystem
effect here is clearing `obs_data` and writing precomputed
per-observer files under `obs_data/`. -/
def obsPreprocess (obsData : List (String × String)) (st : FState) : FState :=
  { st with files := obsData.map (fun p => ("obs_data/" ++ p.1, p.2)) ++
      st.files.filter (fun f => !(strPrefix "obs_data/" f.1)) }

/-- Lines 162–165: `shutil.rmtree(dir_name, True)` then
`os.makedirs(dir_name)` with `dir_name = "exec" + os.sep` — remove the
whole `exec` subtree, then recreate the empty directory. -/
def clearExec (st : FState) : FState :=
  { st with
    files := st.files.filter (fun f => !(strPrefix "exec/" f.1)),
    links := st.links.filter (fun l => !(strPrefix "exec/" l.1)),
    dirs := "exec/" :: st.dirs.filter (fun d => !(strPrefix "exec/" d)) }

/-- `str(params[k])` for a scalar entry (`exp_name`,
`batch_file_name`); both are required keys (§3), so the absent
(`KeyError`) case is modelled as `""`. -/
def getScalarStr (cfg : Config) (k : String) : String :=
  match cfgFind k cfg with
  | some (.scalar v) => pvalStr v
  | _ => ""

/-- Python dict assignment `params[k] = e`: replace in place, keeping
the key's insertion position, or append a new key. -/
def setEntry (k : String) (e : PEntry) : Config → Config
  | [] => [(k, e)]
  | (k1, e1) :: r => if k1 = k then (k, e) :: r else (k1, e1) :: setEntry k e r

/-- Lines 101–102: an explicit BATCH_NAME overrides
`batch_file_name`. -/
def overrideBatchName (cfg : Config) (bn : Option String) : Config :=
  match bn with
  | some n => setEntry "batch_file_name" (.scalar (.vs n)) cfg
  | none => cfg

/-- Lines 150–152: a singleton list collapses to its only element. -/
def unwrapSingleton (cfg : Config) (k : String) : Config :=
  match cfgFind k cfg with
  | some (.plist [v]) => setEntry k (.scalar v) cfg
  | _ => cfg

/-- Lines 142–152: `wavelength`, `layer` and `observer_coordinates`
are added to `params` from `wav.lst` and the dataset, then `layer` and
`observer_coordinates` (but not `wavelength`) are unwrapped when
singletons. -/
def addComputedParams (cfg : Config) (wls : List Int) (nLayers : Nat)
    (oc : List (Int × Int)) : Config :=
  let c1 := setEntry "wavelength" (.plist (wls.map (fun w => .vi w))) cfg
  let c2 := setEntry "layer" (.plist ((List.range nLayers).map (fun i => .vi (Int.ofNat i)))) c1
  let c3 := setEntry "observer_coordinates" (.plist (oc.map (fun ab => .pr ab.1 ab.2))) c2
  unwrapSingleton (unwrapSingleton c3 "layer") "observer_coordinates"

/-- The state handed to `folder_setup`: the pre-combination phases of
`batches` in source order — batch-file deletion (104–105), observer
preprocessing (112–139), `exec` clearing (162–165) and the
`const_params.yml` dump (185–186, content irrelevant to the claims and
modelled as empty). -/
def preComboState (cfg0 : Config) (bn : Option String) (obsData : List (String × String))
    (st : FState) : FState :=
  let bfn := getScalarStr (overrideBatchName cfg0 bn) "batch_file_name"
  writeFile (clearExec (obsPreprocess obsData (removeBatchFiles bfn st))) "const_params.yml" ""

/-- The combination-processing tail of `batches`: `folder_setup`
(line 191), then — only if no exception — the `param_vals.txt` and
`const_params.txt` dumps (lines 197–201, contents irrelevant to the
claims and modelled as empty), then `return` (line 204: everything
after it, including all `.in`-file generation, is dead code). -/
def postCombo (cfg : Config) (brng : Option (List Int)) (compact : Bool)
    (expName : String) (st : FState) : FState × Option PyErr :=
  match folder_setup cfg brng compact "exec/" expName st with
  | (st1, some e) => (st1, some e)
  | (st1, none) => (writeFile (writeFile st1 "param_vals.txt" "") "const_params.txt" "", none)

/-- Lines 84–204, `batches`, as a filesystem transformer: the
pre-combination phases, then the combination-processing tail.
`brngData` models the content of `brng.lst` (lines 157–160); `wls`,
`nLayers` and `oc` model the wavelength table, layer count and
observer positions read from `wav.lst` and the dataset. -/
def batches (cfg0 : Config) (bn : Option String) (brngData : List Int) (compact : Bool)
    (wls : List Int) (nLayers : Nat) (oc : List (Int × Int))
    (obsData : List (String × String)) (st : FState) : FState × Option PyErr :=
  let params := overrideBatchName cfg0 bn
  let cfgFull := addComputedParams params wls nLayers oc
  postCombo cfgFull (if st.hasBrng then some brngData else none) compact
    (getScalarStr params "exp_name") (preComboState cfg0 bn obsData st)

/-- Stable-descending-by-name-length is a total relation. -/
instance : IsTotal String (fun a b => b.length ≤ a.length) :=
  ⟨fun a b => Nat.le_total b.length a.length⟩

/-- Stable-descending-by-name-length is transitive. -/
instance : IsTrans String (fun a b => b.length ≤ a.length) :=
  ⟨fun _ _ _ hab hbc => le_trans hbc hab⟩

/-- An empty filesystem (no `brng.lst`). -/
def fs0 : FState := ⟨false, [], [], []⟩

/-- A concrete sandbox-construction argument vector. -/
def symA : SymArgs :=
  ⟨"exec/a_1/", "ap", "lt", "exp", "45.000000_73.000000", .vi 0, ["L"], "400"⟩

/-- A filesystem in which `symA`'s sandbox directory already exists. -/
def fsDirExists : FState := ⟨false, ["exec/a_1/"], [], []⟩

/-- The state produced by building `symA`'s sandbox on the empty
filesystem. -/
def c8Built : FState :=
  match sandboxBuild [symA] fs0 with
  | .ok s => s
  | .error _ => fs0

/-- The state produced by a successful `create_symlinks symA fs0`. -/
def c7Built : FState :=
  match create_symlinks symA fs0 with
  | .ok s => s
  | .error _ => fs0

/-- A minimal complete configuration: one wavelength, one layer, one
observer, scalar viewing angles. -/
def cfgC1 : Config :=
  [("exp_name", .scalar (.vs "exp")), ("batch_file_name", .scalar (.vs "batch")),
   ("elevation_angle", .scalar (.vi 45)), ("azimuth_angle", .scalar (.vi 0))]

/-- `cfgC1` after `batches` adds the computed parameters. -/
def cfgC1full : Config := addComputedParams cfgC1 [400] 1 [(45, 73)]

/-- A configuration whose only varying parameter is the wavelength. -/
def cfgC6 : Config :=
  [("exp_name", .scalar (.vs "exp")), ("wavelength", .plist [.vi 400]),
   ("layer", .scalar (.vi 0)), ("observer_coordinates", .scalar (.pr 45 73))]

/-- Two varying parameters with equal cardinality 2 but names of
lengths 2 and 4. -/
def cfgC4 : Config :=
  [("ab", .plist [.vi 1, .vi 2]), ("abcd", .plist [.vi 5, .vi 6])]

/-- Two varying parameters whose string values contain the `unique_ID`
separators. -/
def cfgC5 : Config :=
  [("a", .plist [.vs "1", .vs "1-b_2"]), ("b", .plist [.vs "2", .vs "2-b_2"])]

/-- Two varying parameters with separator-free integer values. -/
def cfgC5w : Config :=
  [("a", .plist [.vi 1, .vi 2]), ("b", .plist [.vi 3])]

/-- Varying elevation (only 90°) and azimuth. -/
def cfgC3 : Config :=
  [("elevation_angle", .plist [.vi 90]), ("azimuth_angle", .plist [.vi 0, .vi 180])]

/-- A concrete resolved-parameter record for the serializer. -/
def rpX : RP :=
  ⟨.vi 1, .vi 2, .vi 3, false, true, .vi 101, .vi 4, .vi 5, .vi 6, .vi 7, .vi 8,
   true, .vi 45, 30, .vi 9, .vi 10, .vi 0, .vi 11, .vi 12⟩

/-- A filesystem holding leftovers of a previous run: a batch file, an
old sandbox with a symlink, and an unrelated file. -/
def fsC10 : FState :=
  ⟨false, ["exec/old/"], [("exec/old/aerosol.txt", "t")],
   [("batch_1", "old"), ("keep.txt", "k")]⟩

theorem sum_map_const {α : Type} (l : List α) (n : Nat) :
    (l.map (fun _ => n)).sum = l.length * n := by
  induction l with
  | nil => simp
  | cons a t ih => simp [ih, Nat.succ_mul, Nat.add_comm]

theorem length_listProd (ls : List (List PVal)) :
    (listProd ls).length = (ls.map List.length).prod := by
  induction ls with
  | nil => simp [listProd]
  | cons l t ih =>
    show ((l.map (fun x => (listProd t).map (fun r => x :: r))).flatten).length = _
    rw [List.length_flatten, List.map_map]
    have h : (List.length ∘ fun x => (listProd t).map (fun r => x :: r)) =
        fun _ : PVal => (listProd t).length := by
      funext x; simp
    rw [h, sum_map_const, ih]
    simp

theorem mem_listProd : ∀ (ls : List (List PVal)) (vs : List PVal),
    vs ∈ listProd ls ↔ List.Forall₂ (fun v l => v ∈ l) vs ls := by
  intro ls
  induction ls with
  | nil =>
    intro vs
    simp [listProd, List.forall₂_nil_right_iff]
  | cons l t ih =>
    intro vs
    simp only [listProd, List.mem_flatten, List.mem_map]
    constructor
    · rintro ⟨a, ⟨x, hx, rfl⟩, hvs⟩
      obtain ⟨r, hr, rfl⟩ := List.mem_map.mp hvs
      exact List.Forall₂.cons hx ((ih r).mp hr)
    · intro h
      cases h with
      | cons hx hr => exact ⟨_, ⟨_, hx, rfl⟩, List.mem_map.mpr ⟨_, (ih _).mpr hr, rfl⟩⟩

theorem kvLookup_zip_mem : ∀ (ks : List String) (vs : List PVal) (f : String → List PVal)
    (k : String), k ∈ ks → List.Forall₂ (fun v l => v ∈ l) vs (ks.map f) →
    ∃ v, kvLookup k (ks.zip vs) = some v ∧ v ∈ f k := by
  intro ks
  induction ks with
  | nil =>
    intro vs f k hk
    simp at hk
  | cons k1 kt ih =>
    intro vs f k hk hf
    rw [List.map_cons] at hf
    cases vs with
    | nil => cases hf
    | cons v vt =>
      cases hf with
      | cons hv hvt =>
        by_cases hkk : k1 = k
        · subst hkk
          exact ⟨v, by simp [kvLookup], hv⟩
        · have hk' : k ∈ kt := by
            rcases List.mem_cons.mp hk with h | h
            · exact absurd h.symm hkk
            · exact h
          obtain ⟨w, hw, hwm⟩ := ih vt f k hk' hvt
          refine ⟨w, ?_, hwm⟩
          rw [List.zip_cons_cons]
          simp only [kvLookup, if_neg hkk]
          exact hw

theorem pyIndex_zero_iff (l : List PVal) (v : PVal) (hne : l ≠ []) :
    (pyIndex l v = 0 ↔ l.head? = some v) := by
  cases l with
  | nil => exact absurd rfl hne
  | cons x xs =>
    by_cases h : x = v
    · simp [pyIndex, h]
    · constructor
      · intro h0
        rw [pyIndex, if_neg h] at h0
        omega
      · intro h0
        simp only [List.head?_cons, Option.some.injEq] at h0
        exact absurd h0 h

theorem sdata_append (s t : String) : (s ++ t).data = s.data ++ t.data := by
  cases s; cases t; rfl

theorem sdata_inj {s t : String} (h : s.data = t.data) : s = t := by
  cases s; cases t; exact congrArg String.mk h

theorem append_cons_inj (c : Char) : ∀ (a b x y : List Char), c ∉ a → c ∉ b →
    a ++ c :: x = b ++ c :: y → a = b ∧ x = y := by
  intro a
  induction a with
  | nil =>
    intro b x y _ hb h
    cases b with
    | nil => simpa using h
    | cons d b' =>
      simp only [List.nil_append, List.cons_append, List.cons.injEq] at h
      exact absurd (h.1 ▸ List.mem_cons_self d b') hb
  | cons d a' ih =>
    intro b x y ha hb h
    cases b with
    | nil =>
      simp only [List.nil_append, List.cons_append, List.cons.injEq] at h
      exact absurd (h.1 ▸ List.mem_cons_self d a') ha
    | cons e b' =>
      simp only [List.cons_append, List.cons.injEq] at h
      obtain ⟨rfl, h2⟩ := h
      obtain ⟨h3, h4⟩ := ih b' x y (fun hc => ha (List.mem_cons_of_mem _ hc))
        (fun hc => hb (List.mem_cons_of_mem _ hc)) h2
      exact ⟨by rw [h3], h4⟩

theorem pyJoin_dash_data (p q : String) (t : List String) :
    (pyJoin "-" (p :: q :: t)).data = p.data ++ '-' :: (pyJoin "-" (q :: t)).data := by
  show ((p ++ "-") ++ pyJoin "-" (q :: t)).data = _
  rw [sdata_append, sdata_append]
  simp

theorem pyJoin_dash_inj : ∀ (ps qs : List String), ps.length = qs.length →
    (∀ s ∈ ps, ('-' : Char) ∉ s.data) → (∀ s ∈ qs, ('-' : Char) ∉ s.data) →
    pyJoin "-" ps = pyJoin "-" qs → ps = qs := by
  intro ps
  induction ps with
  | nil =>
    intro qs hlen _ _ _
    cases qs with
    | nil => rfl
    | cons q qt => simp at hlen
  | cons p pt ih =>
    intro qs hlen hp hq h
    cases qs with
    | nil => simp at hlen
    | cons q qt =>
      cases pt with
      | nil =>
        cases qt with
        | nil => simpa [pyJoin] using h
        | cons q2 qt' => simp at hlen
      | cons p2 pt' =>
        cases qt with
        | nil => simp at hlen
        | cons q2 qt' =>
          have hd : (pyJoin "-" (p :: p2 :: pt')).data = (pyJoin "-" (q :: q2 :: qt')).data := by
            rw [h]
          rw [pyJoin_dash_data, pyJoin_dash_data] at hd
          obtain ⟨h1, h2⟩ := append_cons_inj '-' _ _ _ _
            (hp p (by simp)) (hq q (by simp)) hd
          have hpq : p = q := sdata_inj h1
          have htail : pt'.length + 1 = qt'.length + 1 := by simpa using hlen
          have := ih (q2 :: qt') (by simpa using htail)
            (fun s hs => hp s (List.mem_cons_of_mem _ hs))
            (fun s hs => hq s (List.mem_cons_of_mem _ hs))
            (sdata_inj h2)
          rw [hpq, this]

theorem unique_ID_part_data (k : String) (v : PVal) :
    (k ++ "_" ++ pvalStr v).data = k.data ++ '_' :: (pvalStr v).data := by
  rw [sdata_append, sdata_append]
  simp

theorem unique_ID_renders_inj : ∀ (ks : List String) (vs ws : List PVal),
    vs.length = ks.length → ws.length = ks.length →
    (ks.zip vs).map (fun kv => kv.1 ++ "_" ++ pvalStr kv.2) =
      (ks.zip ws).map (fun kv => kv.1 ++ "_" ++ pvalStr kv.2) →
    vs.map pvalStr = ws.map pvalStr := by
  intro ks
  induction ks with
  | nil =>
    intro vs ws h1 h2 _
    simp only [List.length_nil] at h1 h2
    rw [List.length_eq_zero] at h1 h2
    rw [h1, h2]
  | cons k kt ih =>
    intro vs ws h1 h2 h
    cases vs with
    | nil => simp at h1
    | cons v vt =>
      cases ws with
      | nil => simp at h2
      | cons w wt =>
        simp only [List.zip_cons_cons, List.map_cons, List.cons.injEq] at h
        obtain ⟨hh, ht⟩ := h
        have hd := congrArg String.data hh
        rw [unique_ID_part_data, unique_ID_part_data] at hd
        have h3 := List.append_cancel_left hd
        simp only [List.cons.injEq] at h3
        have hvw : pvalStr v = pvalStr w := sdata_inj h3.2
        have := ih vt wt (by simpa using h1) (by simpa using h2) ht
        simp [hvw, this]

theorem unique_ID_inj (ks : List String) (vs ws : List PVal)
    (h1 : vs.length = ks.length) (h2 : ws.length = ks.length)
    (hk : ∀ k ∈ ks, ('-' : Char) ∉ k.data)
    (hv : ∀ v ∈ vs, ('-' : Char) ∉ (pvalStr v).data)
    (hw : ∀ w ∈ ws, ('-' : Char) ∉ (pvalStr w).data)
    (h : unique_ID (ks.zip vs) = unique_ID (ks.zip ws)) :
    vs.map pvalStr = ws.map pvalStr := by
  have hfree : ∀ (us : List PVal), (∀ u ∈ us, ('-' : Char) ∉ (pvalStr u).data) →
      ∀ s ∈ (ks.zip us).map (fun kv => kv.1 ++ "_" ++ pvalStr kv.2),
      ('-' : Char) ∉ s.data := by
    intro us hus s hs hcs
    obtain ⟨⟨k, u⟩, hmem, rfl⟩ := List.mem_map.mp hs
    obtain ⟨hkm, hum⟩ := List.of_mem_zip hmem
    rw [unique_ID_part_data] at hcs
    rcases List.mem_append.mp hcs with hm | hm
    · exact hk k hkm hm
    · rcases List.mem_cons.mp hm with hm2 | hm2
      · exact absurd hm2 (by decide)
      · exact hus u hum hm2
  have hlen : ((ks.zip vs).map (fun kv => kv.1 ++ "_" ++ pvalStr kv.2)).length =
      ((ks.zip ws).map (fun kv => kv.1 ++ "_" ++ pvalStr kv.2)).length := by
    simp [List.length_zip, h1, h2]
  have := pyJoin_dash_inj _ _ hlen (hfree vs hv) (hfree ws hw) h
  exact unique_ID_renders_inj ks vs ws h1 h2 this

theorem filter_orderedInsert_pos (r : String → String → Prop) [DecidableRel r]
    (p : String → Bool) (x : String) (l : List String) (hx : p x = true)
    (hl : ∀ y ∈ l, p y = true → r x y) :
    (List.orderedInsert r x l).filter p = x :: l.filter p := by
  induction l with
  | nil => simp [List.orderedInsert, hx]
  | cons y ys ih =>
    simp only [List.orderedInsert]
    by_cases h : r x y
    · simp [h, hx]
    · have hpy : p y = false := by
        cases hpy : p y
        · rfl
        · exact absurd (hl y (by simp) hpy) h
      simp only [if_neg h, List.filter_cons, hpy]
      simp only [Bool.false_eq_true, if_false]
      rw [ih (fun z hz hpz => hl z (by simp [hz]) hpz)]

theorem filter_orderedInsert_neg (r : String → String → Prop) [DecidableRel r]
    (p : String → Bool) (x : String) (l : List String) (hx : p x = false) :
    (List.orderedInsert r x l).filter p = l.filter p := by
  induction l with
  | nil => simp [List.orderedInsert, hx]
  | cons y ys ih =>
    simp only [List.orderedInsert]
    by_cases h : r x y
    · simp [h, hx]
    · simp only [if_neg h, List.filter_cons]
      rw [ih]

theorem insertionSort_lenDesc_stable (l : List String) (n : Nat) :
    (List.insertionSort (fun a b => b.length ≤ a.length) l).filter
      (fun s => decide (s.length = n)) = l.filter (fun s => decide (s.length = n)) := by
  induction l with
  | nil => rfl
  | cons a t ih =>
    simp only [List.insertionSort]
    by_cases h : a.length = n
    · rw [filter_orderedInsert_pos _ _ a _ (by simp [h]) ?_]
      · rw [ih]; simp [h]
      · intro y hy hpy
        simp at hpy
        simp [h, hpy]
    · rw [filter_orderedInsert_neg _ _ a _ (by simp [h]), ih]
      simp [h]

theorem linkAll_ok_frame : ∀ (ps : List (String × String)) (st st1 : FState),
    linkAll ps st = Except.ok st1 →
    st1.dirs = st.dirs ∧ st1.files = st.files ∧ st1.hasBrng = st.hasBrng := by
  intro ps
  induction ps with
  | nil =>
    intro st st1 h
    simp only [linkAll, Except.ok.injEq] at h
    rw [h]
    exact ⟨rfl, rfl, rfl⟩
  | cons p rest ih =>
    intro st st1 h
    simp only [linkAll] at h
    cases hp : symlinkOp st p with
    | error e => rw [hp] at h; cases h
    | ok st2 =>
      rw [hp] at h
      obtain ⟨hd, hf, hb⟩ := ih st2 st1 h
      simp only [symlinkOp] at hp
      by_cases hc : occupied st p.2 = true
      · rw [if_pos hc] at hp; cases hp
      · rw [if_neg hc] at hp
        injection hp with hp2
        rw [← hp2] at hd hf hb
        exact ⟨hd, hf, hb⟩

theorem create_symlinks_ok_dirs (a : SymArgs) (st st1 : FState)
    (h : create_symlinks a st = Except.ok st1) :
    st.dirs ⊆ st1.dirs ∧ a.fold_name ∈ st1.dirs := by
  by_cases hm : a.fold_name ∈ st.dirs
  · simp only [create_symlinks, if_pos hm, Except.ok.injEq] at h
    rw [← h]
    exact ⟨fun _ hx => hx, hm⟩
  · simp only [create_symlinks, if_neg hm] at h
    have := (linkAll_ok_frame _ _ _ h).1
    rw [this]
    exact ⟨fun x hx => List.mem_cons_of_mem _ hx, List.mem_cons_self _ _⟩

theorem sandboxBuild_ok_dirs : ∀ (as : List SymArgs) (st st1 : FState),
    sandboxBuild as st = Except.ok st1 →
    st.dirs ⊆ st1.dirs ∧ ∀ a ∈ as, a.fold_name ∈ st1.dirs := by
  intro as
  induction as with
  | nil =>
    intro st st1 h
    simp only [sandboxBuild, Except.ok.injEq] at h
    rw [h]
    exact ⟨fun _ hx => hx, by simp⟩
  | cons a rest ih =>
    intro st st1 h
    simp only [sandboxBuild] at h
    cases hc : create_symlinks a st with
    | error e => rw [hc] at h; cases h
    | ok stm =>
      rw [hc] at h
      obtain ⟨hsub, hall⟩ := ih stm st1 h
      obtain ⟨hsub0, hmem0⟩ := create_symlinks_ok_dirs a st stm hc
      refine ⟨fun x hx => hsub (hsub0 hx), ?_⟩
      intro b hb
      rcases List.mem_cons.mp hb with rfl | hb2
      · exact hsub hmem0
      · exact hall b hb2

theorem sandboxBuild_idem : ∀ (as : List SymArgs) (st st1 : FState),
    sandboxBuild as st = Except.ok st1 → sandboxBuild as st1 = Except.ok st1 := by
  intro as
  induction as with
  | nil =>
    intro st st1 h
    rfl
  | cons a rest ih =>
    intro st st1 h
    simp only [sandboxBuild] at h
    cases hc : create_symlinks a st with
    | error e => rw [hc] at h; cases h
    | ok stm =>
      rw [hc] at h
      have hmem : a.fold_name ∈ st1.dirs := by
        have h1 := (create_symlinks_ok_dirs a st stm hc).2
        exact (sandboxBuild_ok_dirs rest stm st1 h).1 h1
      simp only [sandboxBuild, create_symlinks, if_pos hmem]
      exact ih stm st1 h

theorem linkAll_fresh_ok : ∀ (ps : List (String × String)) (st : FState),
    (∀ d ∈ ps.map Prod.snd, occupied st d = false) → (ps.map Prod.snd).Nodup →
    ∃ st1, linkAll ps st = Except.ok st1 ∧ st1.files = st.files ∧
      st1.dirs = st.dirs ∧ st1.hasBrng = st.hasBrng := by
  intro ps
  induction ps with
  | nil =>
    intro st _ _
    exact ⟨st, rfl, rfl, rfl, rfl⟩
  | cons p rest ih =>
    intro st hfresh hnd
    have hnd2 := hnd
    rw [List.map_cons, List.nodup_cons] at hnd2
    have hp : occupied st p.2 = false := hfresh p.2 (by simp)
    have hstep : symlinkOp st p = Except.ok { st with links := (p.2, p.1) :: st.links } := by
      simp [symlinkOp, hp]
    have hfresh' : ∀ d ∈ rest.map Prod.snd,
        occupied { st with links := (p.2, p.1) :: st.links } d = false := by
      intro d hd
      have h1 : occupied st d = false := hfresh d (by simp [hd])
      have h2 : d ≠ p.2 := fun he => hnd2.1 (he ▸ hd)
      simp only [occupied, List.map_cons] at h1 ⊢
      simp only [Bool.or_eq_false_iff, decide_eq_false_iff_not] at h1 ⊢
      refine ⟨⟨h1.1.1, ?_⟩, h1.2⟩
      intro hmem
      rcases List.mem_cons.mp hmem with he | hmem2
      · exact h2 he
      · exact h1.1.2 hmem2
    obtain ⟨st1, hrun, hfiles, hdirs, hb⟩ := ih _ hfresh' hnd2.2
    refine ⟨st1, ?_, by rw [hfiles], by rw [hdirs], by rw [hb]⟩
    simp only [linkAll, hstep]
    exact hrun

theorem strPrefix_exec_obs (p : String) :
    strPrefix "exec/" ("obs_data/" ++ p) = false := by
  simp only [strPrefix, decide_eq_false_iff_not]
  intro h
  rw [sdata_append] at h
  have h2 : ('e' :: ['x', 'e', 'c', '/'] : List Char) <+:
      'o' :: (['b', 's', '_', 'd', 'a', 't', 'a', '/'] ++ p.data) := h
  exact absurd (List.cons_prefix_cons.mp h2).1 (by decide)

theorem slash_mem_obs (p : String) : ('/' : Char) ∈ ("obs_data/" ++ p).data := by
  rw [sdata_append]
  exact List.mem_append_left _ (by decide)

/-- C9: the number of combinations generated before filtering equals
the product of the cardinalities of all varying parameters (duplicates
inside a value list are counted, not deduplicated: the length law holds
for every value list as given). -/
theorem C9_prefilter_count (cfg : Config) :
    (param_vals cfg).length = ((multival cfg).map (fun k => (cfgList cfg k).length)).prod := by
  rw [param_vals, length_listProd, List.map_map]
  exact List.Perm.prod_eq (List.Perm.map _ (List.perm_insertionSort _ _))

/-- C4, counterexample: on a configuration with varying parameters
`ab` (2 values) and `abcd` (2 values), ordering by descending
cardinality with declaration-order tie-break would keep
`["ab", "abcd"]`, but the code (`sorted(multival, key=len,
reverse=True)`, which measures the NAME strings) produces
`["abcd", "ab"]`. -/
theorem C4_cardinality_sort_false :
    multival_sorted cfgC4 ≠ multival_sorted_spec cfgC4 := by decide

/-- C4, amended: the varying parameter names are ordered by descending
length of the parameter NAME string, with ties broken by original
declaration order (the sort is a permutation, pairwise sorted by
descending name length, and stable: names of any fixed length keep
their declaration order), and the Cartesian product is enumerated in
that parameter order. -/
theorem C4_name_length_sort (cfg : Config) :
    (multival_sorted cfg).Perm (multival cfg) ∧
    List.Pairwise (fun a b => b.length ≤ a.length) (multival_sorted cfg) ∧
    (∀ n, (multival_sorted cfg).filter (fun s => decide (s.length = n)) =
      (multival cfg).filter (fun s => decide (s.length = n))) ∧
    param_vals cfg = listProd ((multival_sorted cfg).map (cfgList cfg)) :=
  ⟨List.perm_insertionSort _ _, List.sorted_insertionSort _ _,
    fun n => insertionSort_lenDesc_stable _ n, rfl⟩

/-- C2, counterexample: the generated document does not have 20
logical lines — at a concrete input (as at every input) the serializer
produces 24 logical lines. -/
theorem C2_twenty_lines_false :
    (create_illumina_in "exp" (.vi 0) (fun _ => .vi 100) rpX "400" (.vi 0) (.vi 10)
      ["L"] 0).length ≠ 20 := by decide

/-- C2, amended: for every combination with resolved parameters, the
generated document is an ordered sequence of exactly 24 logical lines
in the stated field order (the spec's own §4.4 enumeration), each line
rendered as its space-joined values left-justified to a minimum field
width of 30 characters, followed by `!` and the " ; "-joined comment
strings — byte-for-byte the §4.4 rendering. -/
theorem C2_serializer_format (exp_name : String) (layer : PVal) (ds_pixel_size : PVal → PVal)
    (P : RP) (wavelength : String) (reflectance bandwidth : PVal) (lamps : List String)
    (bearing : Int) :
    renderDoc (create_illumina_in exp_name layer ds_pixel_size P wavelength reflectance
        bandwidth lamps bearing) =
      specIlluminaDoc exp_name layer ds_pixel_size P wavelength reflectance
        bandwidth lamps bearing ∧
    (create_illumina_in exp_name layer ds_pixel_size P wavelength reflectance
        bandwidth lamps bearing).length = 24 :=
  ⟨rfl, rfl⟩

/-- C5, counterexample: two distinct combinations of `cfgC5` (their
value tuples differ in both coordinates) receive the same `unique_ID`
`a_1-b_2-b_2`, because values containing the separators are joined
without escaping. -/
theorem C5_unique_id_collision :
    [PVal.vs "1-b_2", PVal.vs "2"] ≠ [PVal.vs "1", PVal.vs "2-b_2"] ∧
    [PVal.vs "1-b_2", PVal.vs "2"] ∈ param_vals cfgC5 ∧
    [PVal.vs "1", PVal.vs "2-b_2"] ∈ param_vals cfgC5 ∧
    unique_ID (localOf cfgC5 [PVal.vs "1-b_2", PVal.vs "2"]) =
      unique_ID (localOf cfgC5 [PVal.vs "1", PVal.vs "2-b_2"]) := by decide

/-- C5, amended: `unique_ID` strings of two combinations are distinct
provided no varying parameter name and no rendered value contains the
separator character `-`, and the two combinations' rendered value
tuples differ (value tuples rendering equal — e.g. the int 1 and the
string "1" — also collide, so distinctness of renderings is what the
construction can guarantee). -/
theorem C5_ids_distinct (cfg : Config) (vs ws : List PVal)
    (hvs : vs ∈ param_vals cfg) (hws : ws ∈ param_vals cfg)
    (hk : ∀ k ∈ multival_sorted cfg, ('-' : Char) ∉ k.data)
    (hv : ∀ v ∈ vs, ('-' : Char) ∉ (pvalStr v).data)
    (hw : ∀ w ∈ ws, ('-' : Char) ∉ (pvalStr w).data)
    (hne : vs.map pvalStr ≠ ws.map pvalStr) :
    unique_ID (localOf cfg vs) ≠ unique_ID (localOf cfg ws) := by
  intro h
  have hf1 := (mem_listProd ((multival_sorted cfg).map (cfgList cfg)) vs).mp hvs
  have hf2 := (mem_listProd ((multival_sorted cfg).map (cfgList cfg)) ws).mp hws
  have hl1 : vs.length = (multival_sorted cfg).length := by
    have := List.Forall₂.length_eq hf1
    simpa using this
  have hl2 : ws.length = (multival_sorted cfg).length := by
    have := List.Forall₂.length_eq hf2
    simpa using this
  exact hne (unique_ID_inj (multival_sorted cfg) vs ws hl1 hl2 hk hv hw h)

/-- C5, witness: on `cfgC5w` the hypotheses hold and the theorem
separates the IDs of the two distinct combinations. -/
theorem C5_ids_distinct_witness :
    [PVal.vi 1, PVal.vi 3] ∈ param_vals cfgC5w ∧
    [PVal.vi 2, PVal.vi 3] ∈ param_vals cfgC5w ∧
    (∀ k ∈ multival_sorted cfgC5w, ('-' : Char) ∉ k.data) ∧
    (∀ v ∈ [PVal.vi 1, PVal.vi 3], ('-' : Char) ∉ (pvalStr v).data) ∧
    (∀ w ∈ [PVal.vi 2, PVal.vi 3], ('-' : Char) ∉ (pvalStr w).data) ∧
    [PVal.vi 1, PVal.vi 3].map pvalStr ≠ [PVal.vi 2, PVal.vi 3].map pvalStr ∧
    unique_ID (localOf cfgC5w [PVal.vi 1, PVal.vi 3]) ≠
      unique_ID (localOf cfgC5w [PVal.vi 2, PVal.vi 3]) :=
  ⟨by decide, by decide, by decide, by decide, by decide, by decide,
   C5_ids_distinct cfgC5w [PVal.vi 1, PVal.vi 3] [PVal.vi 2, PVal.vi 3]
     (by decide) (by decide) (by decide) (by decide) (by decide) (by decide)⟩

/-- C3: when azimuth is varying and the combination's resolved
elevation equals 90, the combination is kept by the constraint filter
iff its azimuth equals the first element of the original azimuth list;
and a filtered-out combination has no effect at all in the loop (its
step is a no-op `continue`) and is not among the retained
combinations. -/
theorem C3_filter_iff (cfg : Config) (brng : Option (List Int)) (compact : Bool)
    (dirName : String) (st : FState) (vals : List PVal)
    (hmem : vals ∈ param_vals cfg)
    (haz : "azimuth_angle" ∈ multival_sorted cfg)
    (hel : chainLookup (localOf cfg vals) cfg "elevation_angle" = some (PVal.vi 90)) :
    (keepB (multival_sorted cfg) (localOf cfg vals) cfg = true ↔
      chainLookup (localOf cfg vals) cfg "azimuth_angle" =
        (cfgList cfg "azimuth_angle").head?) ∧
    (keepB (multival_sorted cfg) (localOf cfg vals) cfg = false →
      folderStep cfg (multival_sorted cfg) brng compact dirName st vals = Except.ok () ∧
      vals ∉ retainedVals cfg) := by
  have hf := (mem_listProd ((multival_sorted cfg).map (cfgList cfg)) vals).mp hmem
  obtain ⟨v, hlook, hvmem⟩ :=
    kvLookup_zip_mem (multival_sorted cfg) vals (cfgList cfg) "azimuth_angle" haz hf
  have hchain : chainLookup (localOf cfg vals) cfg "azimuth_angle" = some v := by
    simp only [chainLookup, localOf, hlook]
  have hazne : cfgList cfg "azimuth_angle" ≠ [] := List.ne_nil_of_mem hvmem
  have hidx := pyIndex_zero_iff (cfgList cfg "azimuth_angle") v hazne
  constructor
  · have hkb : keepB (multival_sorted cfg) (localOf cfg vals) cfg = true ↔
        pyIndex (cfgList cfg "azimuth_angle") v = 0 := by
      simp [keepB, haz, hel, hchain]
    rw [hkb, hidx, hchain]
    exact eq_comm
  · intro hkf
    constructor
    · have hkf' : keepB (multival_sorted cfg) ((multival_sorted cfg).zip vals) cfg
          = false := hkf
      simp [folderStep, hkf']
    · intro hmem2
      have h2 := (List.mem_filter.mp hmem2).2
      simp only [hkf] at h2
      cases h2

/-- C3, witness: on `cfgC3`, the combination (elevation 90,
azimuth 180) satisfies the hypotheses, is filtered out (its azimuth is
not the first element 0), its step is a no-op and it is not
retained. -/
theorem C3_filter_iff_witness :
    [PVal.vi 90, PVal.vi 180] ∈ param_vals cfgC3 ∧
    "azimuth_angle" ∈ multival_sorted cfgC3 ∧
    chainLookup (localOf cfgC3 [PVal.vi 90, PVal.vi 180]) cfgC3 "elevation_angle" =
      some (PVal.vi 90) ∧
    keepB (multival_sorted cfgC3) (localOf cfgC3 [PVal.vi 90, PVal.vi 180]) cfgC3 = false ∧
    folderStep cfgC3 (multival_sorted cfgC3) none false "exec/" fs0
      [PVal.vi 90, PVal.vi 180] = Except.ok () ∧
    [PVal.vi 90, PVal.vi 180] ∉ retainedVals cfgC3 := by
  refine ⟨by decide, by decide, by decide, by decide, ?_⟩
  have h := (C3_filter_iff cfgC3 none false "exec/" fs0 [PVal.vi 90, PVal.vi 180]
    (by decide) (by decide) (by decide)).2 (by decide)
  exact h

/-- C7, counterexample: on an empty filesystem — every static and
precomputed asset is missing — `create_symlinks` completes
successfully (producing dangling links) instead of aborting with an
error: `os.symlink` never consults the target path. -/
theorem C7_missing_assets_no_error :
    fs0.files = [] ∧ create_symlinks symA fs0 = Except.ok c7Built ∧ c7Built.files = [] :=
  ⟨rfl, rfl, rfl⟩

/-- C7, amended: symlink creation never checks the linked asset:
whenever the sandbox directory is new and the destination link names
are unoccupied and pairwise distinct, construction succeeds — for
every filesystem content whatsoever, missing assets included — and
reads or creates no regular file.  An error arises only when a
destination link path itself already exists (`FileExistsError`
surfaces that path, in `symlinkOp`). -/
theorem C7_symlinks_ignore_assets (a : SymArgs) (st : FState)
    (hf : a.fold_name ∉ st.dirs)
    (hfresh : ∀ d ∈ linkDests a, occupied st d = false)
    (hne : ∀ d ∈ linkDests a, d ≠ a.fold_name)
    (hnd : (linkDests a).Nodup) :
    ∃ st1, create_symlinks a st = Except.ok st1 ∧ st1.files = st.files := by
  have hfresh' : ∀ d ∈ (linkPairs a).map Prod.snd,
      occupied { st with dirs := a.fold_name :: st.dirs } d = false := by
    intro d hd
    have h1 := hfresh d hd
    have h2 := hne d hd
    simp only [occupied] at h1 ⊢
    simp only [Bool.or_eq_false_iff, decide_eq_false_iff_not] at h1 ⊢
    refine ⟨⟨?_, h1.1.2⟩, h1.2⟩
    intro hmem
    rcases List.mem_cons.mp hmem with he | hm
    · exact h2 he
    · exact h1.1.1 hm
  obtain ⟨st1, hrun, hfiles, _, _⟩ := linkAll_fresh_ok (linkPairs a)
    { st with dirs := a.fold_name :: st.dirs } hfresh' hnd
  refine ⟨st1, ?_, by rw [hfiles]⟩
  simp only [create_symlinks, if_neg hf]
  exact hrun

/-- C7, witness: the amended theorem applied to `symA` on the empty
filesystem. -/
theorem C7_symlinks_ignore_assets_witness :
    symA.fold_name ∉ fs0.dirs ∧
    (∀ d ∈ linkDests symA, occupied fs0 d = false) ∧
    (∀ d ∈ linkDests symA, d ≠ symA.fold_name) ∧
    (linkDests symA).Nodup ∧
    (∃ st1, create_symlinks symA fs0 = Except.ok st1 ∧ st1.files = fs0.files) :=
  ⟨by decide, by decide, by decide, by decide,
   C7_symlinks_ignore_assets symA fs0 (by decide) (by decide) (by decide) (by decide)⟩

/-- C8: when the resolved sandbox directory already exists,
`create_symlinks` is skipped entirely (the state is returned
untouched: no directory creation, no symlink creation); and re-running
sandbox construction over an unchanged combination set from the state
a successful run produced changes nothing — in particular it creates
no new symlinks. -/
theorem C8_sandbox_idempotent (a : SymArgs) (st : FState) (as : List SymArgs) (st1 : FState) :
    (a.fold_name ∈ st.dirs → create_symlinks a st = Except.ok st) ∧
    (sandboxBuild as st = Except.ok st1 → sandboxBuild as st1 = Except.ok st1) :=
  ⟨fun h => by simp [create_symlinks, h], fun h => sandboxBuild_idem as st st1 h⟩

/-- C8, witness: skipping on an existing directory, and idempotence of
the one-sandbox build of `symA`. -/
theorem C8_sandbox_idempotent_witness :
    symA.fold_name ∈ fsDirExists.dirs ∧
    create_symlinks symA fsDirExists = Except.ok fsDirExists ∧
    sandboxBuild [symA] fs0 = Except.ok c8Built ∧
    sandboxBuild [symA] c8Built = Except.ok c8Built :=
  ⟨by decide,
   (C8_sandbox_idempotent symA fsDirExists [] fsDirExists).1 (by decide),
   rfl,
   (C8_sandbox_idempotent symA fs0 [symA] c8Built).2 rfl⟩

/-- C1: `batches` produces no input file at all.  On a configuration
with one retained combination, the run aborts with
`NameError: refls` raised inside `folder_setup` (line 293), and the
final filesystem holds no file under the execution directory — in
particular no `<uniqueID>.in` — because the `.in`-writing code of
`param_generate` sits after the unconditional `return` of line 204 and
is never reached (and itself reads names that are not in its scope). -/
theorem C1_no_input_files :
    retainedVals cfgC1full ≠ [] ∧
    (batches cfgC1 none [] false [400] 1 [(45, 73)] [] fs0).2 =
      some (PyErr.nameError "refls") ∧
    ((batches cfgC1 none [] false [400] 1 [(45, 73)] [] fs0).1.files.filter
      (fun f => strPrefix "exec/" f.1)) = [] := by
  decide

/-- C6: on a configuration with one retained combination,
`folder_setup` raises `NameError: refls` (line 293) before appending
any manifest entry, and `execute_info.txt` is never written — the
manifest does not contain one line per retained combination. -/
theorem C6_manifest_never_written :
    retainedVals cfgC6 ≠ [] ∧
    (folder_setup cfgC6 none false "exec/" "exp" fs0).2 = some (PyErr.nameError "refls") ∧
    "execute_info.txt" ∉
      ((folder_setup cfgC6 none false "exec/" "exp" fs0).1.files.map Prod.fst) := by
  decide

/-- C10: the state handed to the combination-processing phase contains
no top-level file matching `batch_file_name*`, and nothing under the
execution directory beyond the freshly created empty `exec/` itself —
every sandbox, run script and batch file of a previous run is deleted
before any combination is processed; and `batches` is exactly the
combination phase run on that cleaned state.  (The hypothesis excludes
the degenerate batch name that is a prefix of the tool's own
`const_params.yml` output.) -/
theorem C10_cleanup_before_combos (cfg0 : Config) (bn : Option String)
    (obsData : List (String × String)) (st : FState) (brngData : List Int)
    (compact : Bool) (wls : List Int) (nLayers : Nat) (oc : List (Int × Int))
    (hconst : strPrefix (getScalarStr (overrideBatchName cfg0 bn) "batch_file_name")
      "const_params.yml" = false) :
    (∀ f ∈ (preComboState cfg0 bn obsData st).files,
      batchMatch (getScalarStr (overrideBatchName cfg0 bn) "batch_file_name") f.1 = false) ∧
    (∀ f ∈ (preComboState cfg0 bn obsData st).files, strPrefix "exec/" f.1 = false) ∧
    (∀ l ∈ (preComboState cfg0 bn obsData st).links, strPrefix "exec/" l.1 = false) ∧
    (∀ d ∈ (preComboState cfg0 bn obsData st).dirs,
      d = "exec/" ∨ strPrefix "exec/" d = false) ∧
    batches cfg0 bn brngData compact wls nLayers oc obsData st =
      postCombo (addComputedParams (overrideBatchName cfg0 bn) wls nLayers oc)
        (if st.hasBrng then some brngData else none) compact
        (getScalarStr (overrideBatchName cfg0 bn) "exp_name")
        (preComboState cfg0 bn obsData st) := by
  refine ⟨?_, ?_, ?_, ?_, rfl⟩
  · intro f hf
    simp only [preComboState, writeFile, clearExec, obsPreprocess, removeBatchFiles] at hf
    rcases List.mem_cons.mp hf with rfl | hf1
    · simp [batchMatch, hconst]
    · have hf2 := (List.mem_filter.mp hf1).1
      have hf3 := (List.mem_filter.mp hf2).1
      rcases List.mem_append.mp hf3 with hmap | hrm
      · obtain ⟨q, hq, rfl⟩ := List.mem_map.mp hmap
        simp [batchMatch, slash_mem_obs]
      · have hf5 := (List.mem_filter.mp (List.mem_filter.mp hrm).1).2
        simpa using hf5
  · intro f hf
    simp only [preComboState, writeFile, clearExec, obsPreprocess, removeBatchFiles] at hf
    rcases List.mem_cons.mp hf with rfl | hf1
    · decide
    · have hf2 := (List.mem_filter.mp hf1).1
      have hf5 := (List.mem_filter.mp hf2).2
      simpa using hf5
  · intro l hl
    simp only [preComboState, writeFile, clearExec, obsPreprocess, removeBatchFiles] at hl
    have := (List.mem_filter.mp hl).2
    simpa using this
  · intro d hd
    simp only [preComboState, writeFile, clearExec, obsPreprocess, removeBatchFiles] at hd
    rcases List.mem_cons.mp hd with rfl | hd1
    · exact Or.inl rfl
    · have := (List.mem_filter.mp hd1).2
      exact Or.inr (by simpa using this)

/-- C10, witness: the theorem applied to `cfgC1` over a filesystem
holding an old batch file, an old sandbox directory with a stale
symlink, and an unrelated file. -/
theorem C10_cleanup_before_combos_witness :
    strPrefix (getScalarStr (overrideBatchName cfgC1 none) "batch_file_name")
      "const_params.yml" = false ∧
    ((∀ f ∈ (preComboState cfgC1 none [("x", "d")] fsC10).files,
      batchMatch (getScalarStr (overrideBatchName cfgC1 none) "batch_file_name") f.1
        = false) ∧
    (∀ f ∈ (preComboState cfgC1 none [("x", "d")] fsC10).files,
      strPrefix "exec/" f.1 = false) ∧
    (∀ l ∈ (preComboState cfgC1 none [("x", "d")] fsC10).links,
      strPrefix "exec/" l.1 = false) ∧
    (∀ d ∈ (preComboState cfgC1 none [("x", "d")] fsC10).dirs,
      d = "exec/" ∨ strPrefix "exec/" d = false) ∧
    batches cfgC1 none [] false [400] 1 [(45, 73)] [("x", "d")] fsC10 =
      postCombo (addComputedParams (overrideBatchName cfgC1 none) [400] 1 [(45, 73)])
        (if fsC10.hasBrng then some [] else none) false
        (getScalarStr (overrideBatchName cfgC1 none) "exp_name")
        (preComboState cfgC1 none [("x", "d")] fsC10)) :=
  ⟨by decide,
   C10_cleanup_before_combos cfgC1 none [("x", "d")] fsC10 [] false [400] 1 [(45, 73)]
     (by decide)⟩
